import Mathlib

/-!
Verification of AliceGit (src/AliceGit/Git.py, src/AliceGit/Github.py,
src/AliceGit/Exceptions.py) against its natural-language specification.

The modules are shallowly embedded: every subprocess call and HTTP request
is replaced by explicit inputs (the text the external tool would print, the
HTTP status codes the platform would answer), and every function that
mutates the world instead returns the list of command strings it would have
executed, so that "performs no mutation" is the statement that this list is
empty.  Python strings are modelled by Lean `String` (or `List Char` where
list reasoning is needed), Python exceptions by an explicit error type
threaded through `Except` / `Option`.
-/

namespace AliceGit

/-- Occurrence of `pat` as a contiguous sublist: `pat` is a prefix of some
suffix of the scanned list. -/
def charsInfix (pat : List Char) : List Char → Bool
  | [] => pat.isEmpty
  | c :: cs => pat.isPrefixOf (c :: cs) || charsInfix pat cs

/-- Python's substring test `pat in s` (membership of `pat` as a contiguous
substring of `s`). -/
def pyIn (pat s : String) : Bool :=
  charsInfix pat.toList s.toList

/-- Python's `s.startswith(pre)`. -/
def pyStartsWith (pre s : String) : Bool :=
  pre.toList.isPrefixOf s.toList

/-- Value of a nonempty all-digit character list, `none` otherwise; helper
for `pyInt`. -/
def digitsVal : List Char → Option Nat
  | [] => none
  | cs =>
    if cs.all Char.isDigit then
      some (cs.foldl (fun a c => a * 10 + (c.toNat - 48)) 0)
    else
      none

/-- Python's `int(s)` on an already-stripped string: an optional sign
followed by at least one decimal digit; anything else raises `ValueError`,
modelled as `none`. -/
def pyInt (s : String) : Option Int :=
  match s.toList with
  | [] => none
  | '-' :: rest => (digitsVal rest).map fun n => -(n : Int)
  | '+' :: rest => (digitsVal rest).map fun n => (n : Int)
  | cs => (digitsVal cs).map fun n => (n : Int)

namespace Status

/-- `Status.isDirty` (Git.py lines 341-352).  `statusOut` is the stripped
stdout of `git -C dir status`; `revListOut` the stripped stdout of
`git -C dir rev-list --count origin/master..HEAD`.  The source returns
`True` as soon as the status text does not contain `working tree clean`;
otherwise it parses the rev-list text as an integer, returning `True` on a
positive count and also `True` when parsing raises `ValueError`. -/
def isDirty (statusOut revListOut : String) : Bool :=
  if !(pyIn "working tree clean" statusOut) then
    true
  else
    match pyInt revListOut with
    | some n => decide (0 < n)
    | none => true

end Status

/-- The exception surface of Git.py (Exceptions.py), together with two
untyped Python failures: `attributeError` models the `AttributeError`
raised when a nonexistent attribute such as the misspelled `execcute` is
looked up, and `typeError` models the `TypeError` raised by a bare
`raise SomeExceptionClass` whose `__init__` requires a `path` argument
that the bare raise does not supply. -/
inductive GitError
  | pathNotFound
  | notGitRepository
  | alreadyGitRepository
  | dirtyRepository
  | emptyTarget
  | attributeError
  | typeError
  deriving DecidableEq

/-- The on-disk facts `Repository.__init__` / `Repository.isRepository`
inspect: whether the directory exists, whether `.git` exists under it, and
whether each of the seven expected entries exists under `.git`. -/
structure DirState where
  dirExists : Bool
  gitExists : Bool
  hooks : Bool
  info : Bool
  objects : Bool
  refs : Bool
  config : Bool
  description : Bool
  headFile : Bool
  deriving DecidableEq

namespace Repository

/-- `Repository.isRepository` (Git.py lines 106-128): `.git` must exist and
contain every one of hooks, info, objects, refs, config, description,
HEAD. -/
def isRepository (d : DirState) : Bool :=
  d.gitExists &&
    (d.hooks && d.info && d.objects && d.refs && d.config && d.description && d.headFile)

/-- Replace the first occurrence of `pat` in a character list by `rep`;
helper for `replaceFirst`. -/
def replaceFirstAux (pat rep : List Char) : List Char → List Char
  | [] => []
  | c :: cs =>
    if pat.isPrefixOf (c :: cs) then rep ++ (c :: cs).drop pat.length
    else c :: replaceFirstAux pat rep cs

/-- Python's `s.replace(pat, rep, 1)` for a nonempty pattern. -/
def replaceFirst (s pat rep : String) : String :=
  ⟨replaceFirstAux pat.toList rep.toList s.toList⟩

/-- The `-C` injection of `Repository.execute` (Git.py lines 254-256): a
command that does not already start with `git -C` has its first `git`
replaced by `git -C {path}` unless `noDashCOption` is set. -/
def dashC (path : String) (noDashCOption : Bool) (command : String) : String :=
  if !(pyStartsWith "git -C" command) && !noDashCOption then
    replaceFirst command "git" ("git -C " ++ path)
  else command

/-- `Repository.execute` (Git.py lines 254-264), restricted to the command
string it passes to the subprocess: after the `-C` injection, ` --quiet` is
appended exactly when the quiet flag is set and the (already injected)
command contains neither the substring `remote` nor the substring `add`. -/
def executeCmd (path : String) (quiet : Bool) (noDashCOption : Bool) (command : String) : String :=
  let cmd := dashC path noDashCOption command
  if quiet && !(pyIn "remote" cmd) && !(pyIn "add" cmd) then cmd ++ " --quiet"
  else cmd

/-- `Repository.__init__` (Git.py lines 35-60), with the filesystem state
abstracted into a `DirState` and the executed commands returned as a trace.
The source raises `PathNotFoundException(directory)` when the directory is
missing and `makeDir` is unset, `NotGitRepository(directory)` when it
exists without a `.git` entry and `init` is unset, then (after `mkdir`)
runs `git init` when `init` is set on a non-repository.  The remaining two
raises are BARE class raises: line 57 `raise AlreadyGitRepository` (when
`init` and `raiseIfExisting` are both set on a complete repository) and
line 60 `raise NotGitRepository` (when `init` is unset and the marker set
is incomplete).  A bare `raise C` makes Python call `C()` with no
arguments, and both exception constructors require a `path` argument, so
these two paths actually fail with `TypeError`, not with the named
exception. -/
def construct (path : String) (quiet : Bool) (d : DirState)
    (makeDir initFlag raiseIfExisting : Bool) : Except GitError (List String) :=
  if !d.dirExists && !makeDir then .error .pathNotFound
  else if d.dirExists && !d.gitExists && !initFlag then .error .notGitRepository
  else if initFlag then
    if !(isRepository d) then .ok [executeCmd path quiet false "git init"]
    else if raiseIfExisting then .error .typeError
    else .ok []
  else if !(isRepository d) then .error .typeError
  else .ok []

/-- The three commands of `Repository.revert` (Git.py lines 163-166):
`reset()` runs `git reset --hard`, `clean()` with its default arguments
runs `git clean -fd`, then `git checkout HEAD` is executed. -/
def revertCmds (path : String) (quiet : Bool) : List String :=
  [executeCmd path quiet false "git reset --hard",
   executeCmd path quiet false "git clean -fd",
   executeCmd path quiet false "git checkout HEAD"]

end Repository

/-- The textual outputs that determine `Status.isDirty` for a repository:
the stripped stdout of `git status` and of
`git rev-list --count origin/master..HEAD`. -/
structure WorkState where
  statusOut : String
  revListOut : String
  deriving DecidableEq

namespace Repository

/-- `Repository.checkout` (Git.py lines 131-146): the checkout target is
`tags/{tag} -B Branch_{tag}` when a tag is given, else the branch; an empty
target raises; on a dirty tree it raises `DirtyRepository` unless `force`
is set, in which case `revert()` runs first; finally
`git checkout {target} --recurse-submodules` is executed.  The first
component is the trace of executed (mutating) commands, the second the
raised exception if any. -/
def checkout (path : String) (quiet : Bool) (w : WorkState)
    (branch tag : String) (force : Bool) : List String × Option GitError :=
  let target := if tag ≠ "" then "tags/" ++ tag ++ " -B Branch_" ++ tag else branch
  if target = "" then ([], some .emptyTarget)
  else if Status.isDirty w.statusOut w.revListOut then
    if !force then ([], some .dirtyRepository)
    else (revertCmds path quiet ++
      [executeCmd path quiet false ("git checkout " ++ target ++ " --recurse-submodules")],
      none)
  else ([executeCmd path quiet false ("git checkout " ++ target ++ " --recurse-submodules")],
    none)

/-- `Repository.pullSubmodules` (Git.py lines 201-205).  When `force` is
set the source evaluates `self.execcute(...)` — `execcute` is not an
attribute of the class, so Python raises `AttributeError` at the attribute
lookup, before any submodule command is executed; otherwise
`git submodule foreach git pull` runs. -/
def pullSubmodules (path : String) (quiet : Bool) (force : Bool) :
    List String × Option GitError :=
  if force then ([], some .attributeError)
  else ([executeCmd path quiet false "git submodule foreach git pull"], none)

/-- `Repository.pull` (Git.py lines 188-198): on a dirty tree it raises
`DirtyRepository` unless `force` is set, in which case `revert()` runs
first; then `git pull` is executed and, when `pullSubmodules` is set, the
submodule pull is cascaded (with `force` passed through). -/
def pull (path : String) (quiet : Bool) (w : WorkState)
    (force pullSubs : Bool) : List String × Option GitError :=
  if Status.isDirty w.statusOut w.revListOut && !force then ([], some .dirtyRepository)
  else
    let pre := if Status.isDirty w.statusOut w.revListOut then revertCmds path quiet else []
    let base := pre ++ [executeCmd path quiet false "git pull"]
    if pullSubs then
      let sub := pullSubmodules path quiet force
      (base ++ sub.1, sub.2)
    else (base, none)

end Repository

/-- Join lines with a separator character, the inverse of `splitChar`;
models how the external tool prints one stash entry per line. -/
def joinChar (sep : Char) : List (List Char) → List Char
  | [] => []
  | [g] => g
  | g :: gs => g ++ sep :: joinChar sep gs

/-- Python's `s.split(sep)` for a one-character separator, on character
lists: every occurrence splits, empty pieces are kept, and the empty
string yields the one-element list of the empty piece. -/
def splitChar (sep : Char) : List Char → List (List Char)
  | [] => [[]]
  | c :: cs =>
    if c = sep then [] :: splitChar sep cs
    else
      match splitChar sep cs with
      | [] => [[c]]
      | g :: gs => (c :: g) :: gs

namespace Repository

/-- The stripped stdout of `git stash list` when the stash holds the given
entries, newest first: one line per entry. -/
def stashListStdout (entries : List (List Char)) : List Char :=
  joinChar '\n' entries

/-- `Repository.listStash` (Git.py lines 169-171): the stdout of
`git stash list` split on newlines (Python `str.split`, so an empty stdout
still yields one empty element). -/
def listStash (entries : List (List Char)) : List (List Char) :=
  splitChar '\n' (stashListStdout entries)

/-- The external tool's `git stash push` effect on the stash entry list: a
new entry is prepended when there are changes to shelve, otherwise the
list is unchanged. -/
def gitStashPush (hasChanges : Bool) (newEntry : List Char)
    (entries : List (List Char)) : List (List Char) :=
  if hasChanges then newEntry :: entries else entries

/-- `Repository.stash` (Git.py lines 174-176): after the push command it
returns `len(self.listStash()) - 1`, over the entry list the push left
behind. -/
def stash (entriesAfterPush : List (List Char)) : Nat :=
  (listStash entriesAfterPush).length - 1

/-- `Repository.dropStash` (Git.py lines 179-185): the sentinel `all` runs
`git stash clear` (emptying the stash) and returns the empty list; a
numeric index runs `git stash drop {index}` and returns the reported list
afterwards.  `gitDropResult` is the entry list the external drop command
leaves behind; the first component is the resulting stash state, the
second the returned value. -/
def dropStash (index : String) (gitDropResult : List (List Char)) :
    List (List Char) × List (List Char) :=
  if index = "all" then ([], [])
  else (gitDropResult, listStash gitDropResult)

end Repository

namespace Git

/-- `Remote.getCommitCount` (Git.py lines 401-414), with the commit graph
abstracted: `remoteBranch` is the set of commits reachable from
`{name}/{branch}` once the fetch side effect has run, `headReach` the set
reachable from the local HEAD, and `git rev-list --count A..B` counts the
commits reachable from `B` but not from `A`.  With `ahead = true` the
source builds the range `{name}/{branch}..HEAD` and therefore counts
`headReach \ remoteBranch`; with `ahead = false` it builds
`HEAD..{name}/{branch}` and counts `remoteBranch \ headReach`. -/
def Remote.getCommitCount (remoteBranch headReach : Finset ℕ) (ahead : Bool) : ℕ :=
  if ahead then (headReach \ remoteBranch).card else (remoteBranch \ headReach).card

end Git

/-- An HTTP request issued by the Github client, recorded for the traces:
a GET or a POST on a URL. -/
inductive HttpReq
  | getUrl (url : String)
  | postUrl (url : String)
  deriving DecidableEq

namespace Github

/-- The exception surface of Github.py: the typed exceptions of
Exceptions.py plus `emptyCredentials` and `cannotForkOwn` for the two bare
`Exception` raises in `Github.__init__` and `Remote.fork`. -/
inductive GithubError
  | emptyCredentials
  | userNotFound (username : String)
  | repoNotFound (repositoryName : String)
  | createFailed (repositoryName : String) (statusCode : Nat)
  | rateLimit (username : String)
  | forkFailed (repository : String)
  | alreadyForked (repository : String)
  | cannotForkOwn
  deriving DecidableEq

/-- `Github.Remote` (Github.py lines 133-136): a hosting-side repository
URL together with the basic-auth pair it was resolved with. -/
structure Remote where
  url : String
  authUser : String
  authToken : String
  deriving DecidableEq

/-- The HTTP status codes the platform would answer to each request the
client can issue; they stand for the external world. -/
structure GithubWorld where
  userProfileStatus : Nat
  officialProfileStatus : Nat
  usersRepoStatus : Nat
  officialRepoStatus : Nat
  createStatus : Nat
  forkProbeStatus : Nat
  forkPostStatus : Nat
  deriving DecidableEq

/-- Python's `s.lower()`. -/
def pyLower (s : String) : String :=
  ⟨s.toList.map Char.toLower⟩

/-- Split a string on a separator character (every occurrence, empty
pieces kept). -/
def splitStr (sep : Char) (s : String) : List String :=
  (splitChar sep s.toList).map fun cs => ⟨cs⟩

/-- `pathlib`'s `stem` of a path component: the name without its final
dot-suffix (names with a leading dot, which this client never builds, are
not modelled). -/
def stemOf (name : String) : String :=
  let parts := splitStr '.' name
  if parts.length ≤ 1 then name
  else ⟨joinChar '.' (parts.dropLast.map String.toList)⟩

/-- `Path(self.url).parent.stem` in `Remote.fork`: the stem of the
next-to-last slash-separated component of the URL — the owning user. -/
def Remote.ownerOf (r : Remote) : String :=
  stemOf ((splitStr '/' r.url).dropLast.getLastD "")

/-- `Path(self.url).stem` in `Remote.fork`: the stem of the last
slash-separated component of the URL — the repository name. -/
def Remote.repoOf (r : Remote) : String :=
  stemOf ((splitStr '/' r.url).getLastD "")

/-- The URL of the acting user's prospective fork probed by
`Remote.fork`. -/
def Remote.userForkUrl (r : Remote) : String :=
  "https://github.com/" ++ r.authUser ++ "/" ++ Remote.repoOf r ++ ".git"

/-- The full request trace of a `Remote.fork` call that reached the fork
POST: the existence probe GET followed by the POST to the forks API. -/
def Remote.forkTrace (r : Remote) : List HttpReq :=
  [.getUrl (Remote.userForkUrl r),
   .postUrl ("https://api.github.com/repos/" ++ Remote.ownerOf r ++ "/" ++
     Remote.repoOf r ++ "/forks")]

/-- `Remote.fork` (Github.py lines 139-161): refuse (before any request)
to fork a repository whose owner is the acting user, case-insensitively;
probe the fork URL at the acting user's namespace and fail with
`AlreadyForked` on any non-404 answer, without issuing the POST; otherwise
POST the fork request, mapping 429 to `RateLimit`, any other non-202
status to `ForkFailed`, and 202 to a new `Remote` for the fork. -/
def Remote.fork (r : Remote) (w : GithubWorld) :
    List HttpReq × Except GithubError Remote :=
  if pyLower (Remote.ownerOf r) = pyLower r.authUser then
    ([], .error .cannotForkOwn)
  else if w.forkProbeStatus ≠ 404 then
    ([.getUrl (Remote.userForkUrl r)], .error (.alreadyForked (Remote.repoOf r)))
  else if w.forkPostStatus = 429 then
    (Remote.forkTrace r, .error (.rateLimit r.authUser))
  else if w.forkPostStatus ≠ 202 then
    (Remote.forkTrace r, .error (.forkFailed (Remote.repoOf r)))
  else
    (Remote.forkTrace r, .ok ⟨Remote.userForkUrl r, r.authUser, r.authToken⟩)

/-- The user's-fork URL `Github.__init__` builds (Github.py line 42). -/
def usersUrlOf (username token repositoryName : String) : String :=
  "https://" ++ username ++ ":" ++ token ++ "@github.com/" ++ username ++ "/" ++
    repositoryName ++ ".git"

/-- The official-upstream URL `Github.__init__` builds (line 43). -/
def officialUrlOf (officialUser repositoryName : String) : String :=
  "https://github.com/" ++ officialUser ++ "/" ++ repositoryName ++ ".git"

/-- `Github.getRemote` on the user's URL: a `Remote` when the existence
probe answers 200, `None` when `getStatusForUrl` raises
`GithubRepoNotFound`. -/
def usersRemoteProbe (username token repositoryName : String) (w : GithubWorld) :
    Option Remote :=
  if w.usersRepoStatus = 200 then
    some ⟨usersUrlOf username token repositoryName, username, token⟩
  else none

/-- `Github.getRemote` on the official URL. -/
def officialRemoteProbe (username token repositoryName officialUser : String)
    (w : GithubWorld) : Option Remote :=
  if w.officialRepoStatus = 200 then
    some ⟨officialUrlOf officialUser repositoryName, username, token⟩
  else none

/-- `Github.createRepository` (Github.py lines 108-130): POST the creation
request; 429 maps to `RateLimit`, any status outside 200/201 to
`CreateFailed`, else a `Remote` on the user's URL is returned. -/
def createRepositoryCall (username token repositoryName : String) (w : GithubWorld) :
    List HttpReq × Except GithubError Remote :=
  if w.createStatus = 429 then
    ([.postUrl "https://api.github.com/user/repos"], .error (.rateLimit username))
  else if w.createStatus ≠ 200 ∧ w.createStatus ≠ 201 then
    ([.postUrl "https://api.github.com/user/repos"],
      .error (.createFailed repositoryName w.createStatus))
  else
    ([.postUrl "https://api.github.com/user/repos"],
      .ok ⟨usersUrlOf username token repositoryName, username, token⟩)

/-- `Github.handleCreation` (Github.py lines 59-70), returning the users
remote it leaves behind: nothing happens when creation was not requested
or the user's remote already exists; with no official remote a fresh
repository is created, else the official remote is forked. -/
def handleCreation (createFlag : Bool) (usersRemote officialRemote : Option Remote)
    (username token repositoryName : String) (w : GithubWorld) :
    List HttpReq × Except GithubError (Option Remote) :=
  if createFlag then
    match usersRemote with
    | some u => ([], .ok (some u))
    | none =>
      match officialRemote with
      | none =>
        let c := createRepositoryCall username token repositoryName w
        (c.1, c.2.map some)
      | some official =>
        let f := Remote.fork official w
        (f.1, f.2.map some)
  else ([], .ok usersRemote)

/-- The final guard of `Github.__init__` (lines 55-57): when neither the
user's remote nor the official remote is resolved, `GithubRepoNotFound` is
raised; otherwise construction returns with the resolved remotes. -/
structure GithubState where
  usersRemote : Option Remote
  officialRemote : Option Remote
  deriving DecidableEq

/-- The last lines of `Github.__init__`: fail with `RepoNotFound` when
both remotes are unresolved (`is None and is None`), else return the
constructed state. -/
def finishConstruct (trace : List HttpReq) (usersRemote officialRemote : Option Remote)
    (repositoryName : String) : List HttpReq × Except GithubError GithubState :=
  if usersRemote = none ∧ officialRemote = none then
    (trace, .error (.repoNotFound repositoryName))
  else (trace, .ok ⟨usersRemote, officialRemote⟩)

/-- The four existence-probe GETs `Github.__init__` issues once the
credential check has passed: both user profiles, then both repository
URLs. -/
def checkTrace (username token repositoryName officialUser : String) : List HttpReq :=
  [.getUrl ("https://github.com/" ++ username),
   .getUrl ("https://github.com/" ++ officialUser),
   .getUrl (usersUrlOf username token repositoryName),
   .getUrl (officialUrlOf officialUser repositoryName)]

/-- The tail of `Github.__init__` after `checkUsers` succeeded: resolve
both remotes by existence probe, run `handleCreation` when requested, then
apply the final both-missing guard. -/
def afterChecks (username token repositoryName : String) (createFlag : Bool)
    (officialUser : String) (w : GithubWorld) :
    List HttpReq × Except GithubError GithubState :=
  match handleCreation createFlag
      (usersRemoteProbe username token repositoryName w)
      (officialRemoteProbe username token repositoryName officialUser w)
      username token repositoryName w with
  | (t, .error e) => (checkTrace username token repositoryName officialUser ++ t, .error e)
  | (t, .ok usersRes) =>
    finishConstruct (checkTrace username token repositoryName officialUser ++ t)
      usersRes (officialRemoteProbe username token repositoryName officialUser w)
      repositoryName

/-- `Github.__init__` (Github.py lines 31-57): reject empty credentials
before any request; `checkUsers` probes both user profiles, raising
`UserNotFound` on a non-200 answer; then the remotes are resolved,
creation is optionally handled, and the both-missing guard runs. -/
def construct (username token repositoryName : String) (createFlag : Bool)
    (officialUser : String) (w : GithubWorld) :
    List HttpReq × Except GithubError GithubState :=
  if username = "" ∨ token = "" ∨ repositoryName = "" then
    ([], .error .emptyCredentials)
  else if w.userProfileStatus ≠ 200 then
    ([.getUrl ("https://github.com/" ++ username)], .error (.userNotFound username))
  else if w.officialProfileStatus ≠ 200 then
    ([.getUrl ("https://github.com/" ++ username),
      .getUrl ("https://github.com/" ++ officialUser)],
      .error (.userNotFound officialUser))
  else
    afterChecks username token repositoryName createFlag officialUser w

end Github

end AliceGit

namespace AliceGit

/-- C1: `Status.isDirty` returns true exactly when the status text does not
report the working tree clean, or the ahead-count text fails to parse as an
integer, or the parsed ahead-count is positive; it returns false only when
none of these conditions hold. -/
theorem c1_isDirty_characterization (statusOut revListOut : String) :
    Status.isDirty statusOut revListOut = true ↔
      (pyIn "working tree clean" statusOut = false ∨
       pyInt revListOut = none ∨
       ∃ n : Int, pyInt revListOut = some n ∧ 0 < n) := by
  unfold Status.isDirty
  cases h : pyIn "working tree clean" statusOut with
  | false => simp
  | true =>
    cases hp : pyInt revListOut with
    | none => simp
    | some n => simp [decide_eq_true_iff]

/-- C1 witness: a concrete dirty state (unparsable count text) and a
concrete clean state decided through `c1_isDirty_characterization`. -/
theorem c1_isDirty_witness :
    Status.isDirty "On branch master, working tree clean" "oops" = true ∧
    Status.isDirty "On branch master, working tree clean" "0" = false := by
  constructor
  · exact (c1_isDirty_characterization _ _).mpr (Or.inr (Or.inl (by decide)))
  · rcases h : Status.isDirty "On branch master, working tree clean" "0" with _ | _
    · rfl
    · rcases (c1_isDirty_characterization
        "On branch master, working tree clean" "0").mp h with hc | hc | ⟨n, hn, hpos⟩
      · exact absurd hc (by decide)
      · exact absurd hc (by decide)
      · have : n = 0 := by
          have : pyInt "0" = some 0 := by decide
          rw [this] at hn
          exact (Option.some_inj.mp hn).symm
        simp [this] at hpos

/-- C6: the code slip at Git.py line 60 — constructing a `Repository`
without `init` on an existing directory raises the claimed
`NotGitRepository` only when `.git` itself is missing (line 43, which
passes the required `directory` argument); when `.git` is present but its
marker set is incomplete (here: `objects` missing), the bare
`raise NotGitRepository` at line 60 calls the exception constructor with
no arguments, so the program fails with `TypeError` instead of the claimed
`NotGitRepository`. -/
theorem c6_construct_bare_raise_typeError :
    Repository.construct "/repo" true
      ⟨true, false, false, false, false, false, false, false, false⟩ false false false =
      .error .notGitRepository ∧
    Repository.construct "/repo" true
      ⟨true, true, true, true, false, true, true, true, true⟩ false false false =
      .error .typeError :=
  ⟨rfl, rfl⟩

/-- C3: on a dirty tree, `checkout(branch, force=false)` raises
`DirtyRepository` having executed no mutating command, while
`checkout(branch, force=true)` first runs the discard sequence of
`revert()` (hard reset, untracked cleanup, checkout of the current HEAD)
and then checks out the requested branch. -/
theorem c3_checkout_dirty (path : String) (quiet : Bool) (w : WorkState) (branch : String)
    (hbr : branch ≠ "") (hdirty : Status.isDirty w.statusOut w.revListOut = true) :
    Repository.checkout path quiet w branch "" false = ([], some .dirtyRepository) ∧
    Repository.checkout path quiet w branch "" true =
      (Repository.revertCmds path quiet ++
        [Repository.executeCmd path quiet false
          ("git checkout " ++ branch ++ " --recurse-submodules")], none) := by
  constructor <;> simp [Repository.checkout, hbr, hdirty]

/-- C3 witness: a concrete dirty state (status text without
`working tree clean`) at branch `master`. -/
theorem c3_checkout_witness :
    Repository.checkout "/repo" true ⟨"On branch master", "0"⟩ "master" "" false =
      ([], some .dirtyRepository) ∧
    Repository.checkout "/repo" true ⟨"On branch master", "0"⟩ "master" "" true =
      (Repository.revertCmds "/repo" true ++
        [Repository.executeCmd "/repo" true false
          "git checkout master --recurse-submodules"], none) :=
  c3_checkout_dirty "/repo" true ⟨"On branch master", "0"⟩ "master"
    (by decide) (by decide)

/-- C8: the code slip at Git.py line 203 — `pull(force=true,
pullSubmodules=true)` reaches `pullSubmodules(force=True)`, whose first
statement looks up the misspelled attribute `execcute` and therefore
raises `AttributeError` instead of stashing the submodules' changes; the
claim's dirty-guard clause (pull on a dirty tree without force raises
`DirtyRepository`) does hold. -/
theorem c8_pull_execcute_typo :
    Repository.pull "/repo" true ⟨"nothing to commit, working tree clean", "0"⟩ true true =
      ([Repository.executeCmd "/repo" true false "git pull"], some .attributeError) ∧
    Repository.pullSubmodules "/repo" true true = ([], some .attributeError) ∧
    Repository.pull "/repo" true ⟨"On branch master", "0"⟩ false false =
      ([], some .dirtyRepository) := by
  refine ⟨?_, by decide, ?_⟩ <;> decide

/-- C9 counterexample: with the quiet flag set, the staging command
`git add --all` (issued verbatim by `Repository.add`) does NOT get the
` --quiet` modifier appended, because the source skips the modifier for
any command containing the substring `add`, not only for remote
commands. -/
theorem c9_quiet_counterexample :
    Repository.executeCmd "/repo" true false "git add --all" =
      "git -C /repo add --all" ∧
    pyIn "--quiet" (Repository.executeCmd "/repo" true false "git add --all") = false := by
  decide

/-- C9 amended: with the quiet flag set, ` --quiet` is appended to the
`-C`-injected command exactly when that command contains neither the
substring `remote` nor the substring `add`; consequently stash commands
are quieted while remote commands and staging commands (which contain
`add`) are not. -/
theorem c9_quiet_amended :
    (∀ path noDashCOption command,
      (pyIn "remote" (Repository.dashC path noDashCOption command) = false ∧
       pyIn "add" (Repository.dashC path noDashCOption command) = false →
        Repository.executeCmd path true noDashCOption command =
          Repository.dashC path noDashCOption command ++ " --quiet") ∧
      (pyIn "remote" (Repository.dashC path noDashCOption command) = true ∨
       pyIn "add" (Repository.dashC path noDashCOption command) = true →
        Repository.executeCmd path true noDashCOption command =
          Repository.dashC path noDashCOption command)) ∧
    pyIn "--quiet" (Repository.executeCmd "/repo" true false "git stash list") = true ∧
    pyIn "--quiet" (Repository.executeCmd "/repo" true false "git remote -v") = false := by
  refine ⟨fun path noDashCOption command => ⟨?_, ?_⟩, by decide, by decide⟩
  · rintro ⟨h1, h2⟩
    simp [Repository.executeCmd, h1, h2]
  · rintro (h | h) <;> simp [Repository.executeCmd, h]

/-- C9 amended witness: the fetch command is quieted, obtained by applying
the amended theorem at a concrete input. -/
theorem c9_quiet_amended_witness :
    Repository.executeCmd "/repo" true false "git fetch" =
      Repository.dashC "/repo" false "git fetch" ++ " --quiet" :=
  (c9_quiet_amended.1 "/repo" false "git fetch").1 (by decide)

/-- A line without the separator character is not split. -/
theorem splitChar_of_not_mem (sep : Char) (g : List Char) (h : sep ∉ g) :
    splitChar sep g = [g] := by
  induction g with
  | nil => rfl
  | cons c cs ih =>
    have hc : c ≠ sep := fun hcs => h (hcs ▸ List.mem_cons_self c cs)
    have hcs' : sep ∉ cs := fun hm => h (List.mem_cons_of_mem c hm)
    simp [splitChar, hc, ih hcs']

/-- Splitting past a separator-free first line peels it off. -/
theorem splitChar_append_sep (sep : Char) (g rest : List Char) (h : sep ∉ g) :
    splitChar sep (g ++ sep :: rest) = g :: splitChar sep rest := by
  induction g with
  | nil => simp [splitChar]
  | cons c cs ih =>
    have hc : c ≠ sep := fun hcs => h (hcs ▸ List.mem_cons_self c cs)
    have hcs' : sep ∉ cs := fun hm => h (List.mem_cons_of_mem c hm)
    simp [splitChar, hc, ih hcs']

/-- Splitting inverts joining on a nonempty list of separator-free
lines. -/
theorem splitChar_joinChar (sep : Char) (l : List (List Char)) (hne : l ≠ [])
    (hall : ∀ g ∈ l, sep ∉ g) : splitChar sep (joinChar sep l) = l := by
  induction l with
  | nil => exact absurd rfl hne
  | cons g gs ih =>
    cases gs with
    | nil => simpa [joinChar] using splitChar_of_not_mem sep g (hall g (by simp))
    | cons g2 gs2 =>
      have h1 : sep ∉ g := hall g (by simp)
      have hrest : ∀ x ∈ g2 :: gs2, sep ∉ x :=
        fun x hx => hall x (List.mem_cons_of_mem g hx)
      have hj : joinChar sep (g :: g2 :: gs2) = g ++ sep :: joinChar sep (g2 :: gs2) := rfl
      rw [hj, splitChar_append_sep sep g _ h1, ih (by simp) hrest]

/-- On a nonempty stash whose entries are newline-free single lines,
`listStash` reports exactly the entries. -/
theorem listStash_eq_entries (entries : List (List Char)) (hne : entries ≠ [])
    (hall : ∀ g ∈ entries, '\n' ∉ g) : Repository.listStash entries = entries :=
  splitChar_joinChar '\n' entries hne hall

/-- C7 counterexample: pushing a stash entry onto an EMPTY stash does not
increase the reported entry count — an empty `git stash list` stdout is
the empty string, which Python's `split` reports as one (empty) entry, so
the report goes from one element to one element, not from zero to one. -/
theorem c7_stash_count_counterexample :
    ¬ ((Repository.listStash
          (Repository.gitStashPush true "stash entry".toList [])).length =
        (Repository.listStash []).length + 1) := by
  decide

/-- C7 amended: `stash()` returns the reported position of the just-created
entry, the entry count after the push minus one; `listStash()` after a
stash reports exactly one more entry than before PROVIDED the stash was
nonempty before the push (an empty stash list is reported as a single
empty line, so the zero-to-one transition leaves the reported count at
one); `dropStash("all")` clears every entry and returns the empty list. -/
theorem c7_stash_amended (entries : List (List Char)) (e : List Char)
    (he : '\n' ∉ e) (hall : ∀ g ∈ entries, '\n' ∉ g) :
    Repository.stash (Repository.gitStashPush true e entries) = (e :: entries).length - 1 ∧
    (entries ≠ [] →
      (Repository.listStash (Repository.gitStashPush true e entries)).length =
        (Repository.listStash entries).length + 1) ∧
    (∀ g, Repository.dropStash "all" g = ([], [])) := by
  have hpush : Repository.gitStashPush true e entries = e :: entries := rfl
  have hcons : ∀ x ∈ e :: entries, '\n' ∉ x := by
    intro x hx
    rcases List.mem_cons.mp hx with h | h
    · exact h ▸ he
    · exact hall x h
  have hl : Repository.listStash (e :: entries) = e :: entries :=
    listStash_eq_entries (e :: entries) (by simp) hcons
  refine ⟨?_, ?_, fun g => rfl⟩
  · simp only [Repository.stash, hpush, hl]
  · intro hne
    simp only [hpush, hl, listStash_eq_entries entries hne hall, List.length_cons]

/-- C7 amended witness: pushing onto a one-entry stash. -/
theorem c7_stash_amended_witness :
    Repository.stash (Repository.gitStashPush true ['n'] [['o']]) = 1 ∧
    (Repository.listStash (Repository.gitStashPush true ['n'] [['o']])).length =
      (Repository.listStash [['o']]).length + 1 ∧
    Repository.dropStash "all" [['x']] = ([], []) := by
  have h := c7_stash_amended [['o']] ['n'] (by decide) (by decide)
  exact ⟨h.1, h.2.1 (by decide), h.2.2 [['x']]⟩

/-- C4: the code slip at Git.py line 409 — with `ahead = true` the source
builds the range `{name}/{branch}..HEAD`, which counts the commits the
LOCAL head has over the remote branch, not (as the claim and the
function's own parameter docstring state) the commits the remote branch
has over HEAD.  With the remote branch holding one commit that HEAD lacks
and HEAD holding nothing the remote lacks, the claimed value is 1 but the
code computes 0. -/
theorem c4_getCommitCount_direction_bug :
    Git.Remote.getCommitCount ({1, 2} : Finset ℕ) ({1} : Finset ℕ) true = 0 ∧
    (({1, 2} : Finset ℕ) \ ({1} : Finset ℕ)).card = 1 := by
  decide

/-- Helper: anything `finishConstruct` lets through has at least one
resolved remote. -/
theorem finishConstruct_ok (trace : List HttpReq) (u o : Option Github.Remote)
    (n : String) (st : Github.GithubState)
    (h : (Github.finishConstruct trace u o n).2 = .ok st) :
    st.usersRemote.isSome = true ∨ st.officialRemote.isSome = true := by
  by_cases hc : u = none ∧ o = none
  · simp [Github.finishConstruct, hc] at h
  · simp only [Github.finishConstruct, if_neg hc] at h
    simp only [Except.ok.injEq] at h
    subst h
    rcases not_and_or.mp hc with hu | ho
    · exact Or.inl (Option.isSome_iff_ne_none.mpr hu)
    · exact Or.inr (Option.isSome_iff_ne_none.mpr ho)

/-- C2: a successful `Github` construction always carries at least one
resolved remote, and when the credential and user checks pass but both
repository probes fail (with no creation requested) construction fails
with `RepoNotFound`. -/
theorem c2_construct_resolved :
    (∀ username token repositoryName createFlag officialUser w st,
      (Github.construct username token repositoryName createFlag officialUser w).2 =
        .ok st →
      st.usersRemote.isSome = true ∨ st.officialRemote.isSome = true) ∧
    (∀ username token repositoryName officialUser w,
      username ≠ "" → token ≠ "" → repositoryName ≠ "" →
      w.userProfileStatus = 200 → w.officialProfileStatus = 200 →
      w.usersRepoStatus ≠ 200 → w.officialRepoStatus ≠ 200 →
      (Github.construct username token repositoryName false officialUser w).2 =
        .error (.repoNotFound repositoryName)) := by
  constructor
  · intro username token repositoryName createFlag officialUser w st h
    unfold Github.construct at h
    split at h
    · simp at h
    · split at h
      · simp at h
      · split at h
        · simp at h
        · unfold Github.afterChecks at h
          rcases hhc : Github.handleCreation createFlag
              (Github.usersRemoteProbe username token repositoryName w)
              (Github.officialRemoteProbe username token repositoryName officialUser w)
              username token repositoryName w with ⟨t, e⟩
          rw [hhc] at h
          cases e with
          | error e => simp at h
          | ok usersRes => exact finishConstruct_ok _ _ _ _ _ h
  · intro username token repositoryName officialUser w h1 h2 h3 h4 h5 h6 h7
    unfold Github.construct
    rw [if_neg (by simp [h1, h2, h3]), if_neg (by simp [h4]), if_neg (by simp [h5])]
    simp [Github.afterChecks, Github.handleCreation, Github.usersRemoteProbe,
      Github.officialRemoteProbe, Github.finishConstruct, h6, h7]

/-- C2 witness: user fork exists (200), official absent (404), no
creation requested — the resolved state has the user's remote. -/
theorem c2_construct_witness :
    (⟨some ⟨Github.usersUrlOf "alice" "tok" "skill", "alice", "tok"⟩, none⟩ :
        Github.GithubState).usersRemote.isSome = true ∨
    (⟨some ⟨Github.usersUrlOf "alice" "tok" "skill", "alice", "tok"⟩, none⟩ :
        Github.GithubState).officialRemote.isSome = true :=
  c2_construct_resolved.1 "alice" "tok" "skill" false "project-alice-assistant"
    ⟨200, 200, 200, 404, 200, 200, 200⟩
    ⟨some ⟨Github.usersUrlOf "alice" "tok" "skill", "alice", "tok"⟩, none⟩
    rfl

/-- C5: `Remote.fork` refuses (with no request issued) to fork a
repository whose owner equals the acting user case-insensitively; on a
non-404 existence probe it fails with `AlreadyForked` having issued only
the probe GET and no POST; past the probe, a 429 answer to the POST maps
to `RateLimit`, any other non-202 answer to `ForkFailed`, and 202 yields
the new `Remote` of the fork. -/
theorem c5_fork_branches (r : Github.Remote) (w : Github.GithubWorld) :
    (Github.pyLower (Github.Remote.ownerOf r) = Github.pyLower r.authUser →
      Github.Remote.fork r w = ([], .error .cannotForkOwn)) ∧
    (Github.pyLower (Github.Remote.ownerOf r) ≠ Github.pyLower r.authUser →
      w.forkProbeStatus ≠ 404 →
      Github.Remote.fork r w =
        ([.getUrl (Github.Remote.userForkUrl r)],
          .error (.alreadyForked (Github.Remote.repoOf r)))) ∧
    (Github.pyLower (Github.Remote.ownerOf r) ≠ Github.pyLower r.authUser →
      w.forkProbeStatus = 404 → w.forkPostStatus = 429 →
      Github.Remote.fork r w =
        (Github.Remote.forkTrace r, .error (.rateLimit r.authUser))) ∧
    (Github.pyLower (Github.Remote.ownerOf r) ≠ Github.pyLower r.authUser →
      w.forkProbeStatus = 404 → w.forkPostStatus ≠ 429 → w.forkPostStatus ≠ 202 →
      Github.Remote.fork r w =
        (Github.Remote.forkTrace r, .error (.forkFailed (Github.Remote.repoOf r)))) ∧
    (Github.pyLower (Github.Remote.ownerOf r) ≠ Github.pyLower r.authUser →
      w.forkProbeStatus = 404 → w.forkPostStatus = 202 →
      Github.Remote.fork r w =
        (Github.Remote.forkTrace r,
          .ok ⟨Github.Remote.userForkUrl r, r.authUser, r.authToken⟩)) := by
  refine ⟨?_, ?_, ?_, ?_, ?_⟩
  · intro h1
    simp [Github.Remote.fork, h1]
  · intro h1 h2
    simp [Github.Remote.fork, h1, h2]
  · intro h1 h2 h3
    simp [Github.Remote.fork, h1, h2, h3]
  · intro h1 h2 h3 h4
    simp [Github.Remote.fork, h1, h2, h3, h4]
  · intro h1 h2 h3
    simp [Github.Remote.fork, h1, h2, h3]

/-- C5 witness: forking the official skill repository as user `alice`
when the probe finds an existing fork (status 200). -/
theorem c5_fork_witness :
    Github.Remote.fork
        ⟨"https://github.com/project-alice-assistant/skill.git", "alice", "tok"⟩
        ⟨200, 200, 200, 200, 200, 200, 200⟩ =
      ([.getUrl (Github.Remote.userForkUrl
          ⟨"https://github.com/project-alice-assistant/skill.git", "alice", "tok"⟩)],
        .error (.alreadyForked (Github.Remote.repoOf
          ⟨"https://github.com/project-alice-assistant/skill.git", "alice", "tok"⟩))) :=
  (c5_fork_branches _ _).2.1 (by decide) (by decide)

/-- C10: constructing a `Github` client with an empty username, token or
repository name fails before any HTTP request is issued (the request
trace is empty); credentials enter only as explicit parameters of the
embedding, never from ambient state. -/
theorem c10_construct_rejects_empty (username token repositoryName : String)
    (createFlag : Bool) (officialUser : String) (w : Github.GithubWorld)
    (h : username = "" ∨ token = "" ∨ repositoryName = "") :
    Github.construct username token repositoryName createFlag officialUser w =
      ([], .error .emptyCredentials) := by
  unfold Github.construct
  rw [if_pos h]

/-- C10 witness: empty username. -/
theorem c10_construct_rejects_empty_witness :
    Github.construct "" "tok" "skill" true "project-alice-assistant"
        ⟨200, 200, 200, 200, 200, 200, 200⟩ =
      ([], .error .emptyCredentials) :=
  c10_construct_rejects_empty "" "tok" "skill" true "project-alice-assistant"
    ⟨200, 200, 200, 200, 200, 200, 200⟩ (Or.inl rfl)

end AliceGit
